import Mathlib

/-!
Shallow embedding of the pKVM paravirtualized IOMMU core:

* the guest domain-ID allocator (`pkvm_guest_iommu_alloc_id`,
  `pkvm_guest_iommu_free_id` from
  `arch/arm64/kvm/hyp/nvhe/iommu/pviommu.c`),
* the guest hypercall handlers (`pkvm_guest_iommu_map`,
  `pkvm_guest_iommu_unmap`, `pkvm_guest_iommu_alloc_domain`,
  `pkvm_guest_iommu_attach_dev`, `pkvm_guest_iommu_detach_dev`,
  `pkvm_guest_iommu_version`, `pkvm_guest_iommu_get_feature`,
  `pkvm_guest_iommu_free_domain`, and the dispatcher
  `kvm_handle_pviommu_hvc`),
* the device registry (`__pkvm_device_assign`, `__pkvm_group_assign`,
  `pkvm_host_map_guest_mmio`, `pkvm_get_device_pa`,
  `pkvm_device_request_mmio` from the hyp device registry file).

External collaborators (the underlying IOMMU driver, the stage-2 page
table walker and pte helpers, the hyp-request reservation area, the
memory donation path and the route table implementation) are not part
of the sources; they are modelled as explicit oracle parameters of the
embedded functions, at the granularity at which the embedded code
observes them.  Machine integers are modelled as `Nat`/`Int`, with
'% 2^64' applied where 64-bit wrap-around matters.
-/

/-- Linux `BITS_PER_LONG` on arm64. -/
def BITS_PER_LONG : Nat := 64

/-- One more than the largest `u64` value; used for wrap-around arithmetic. -/
def U64_MOD : Nat := 2 ^ 64

/-- The all-ones 64-bit word, C `~0UL`. -/
def UL_MAX : Nat := 2 ^ 64 - 1

/-- arm64 `PAGE_SIZE` with the default 4K granule. -/
def PAGE_SIZE : Nat := 4096

/-- `SMCCC_RET_SUCCESS`. -/
def SMCCC_RET_SUCCESS : Int := 0

/-- `SMCCC_RET_INVALID_PARAMETER`. -/
def SMCCC_RET_INVALID_PARAMETER : Int := -3

/-- `PVIOMMU_VERSION` from `nvhe/pviommu.h`. -/
def PVIOMMU_VERSION : Nat := 0x1000

/-- `PVIOMMU_REQUEST_FEATURE_PGSZ_BITMAP` from `nvhe/pviommu.h`. -/
def PVIOMMU_REQUEST_FEATURE_PGSZ_BITMAP : Nat := 0x1

/-- Linux `-EPERM`. -/
def EPERM : Int := 1

/-- Linux `-ENOMEM` magnitude. -/
def ENOMEM : Int := 12

/-- Linux `-EBUSY` magnitude. -/
def EBUSY : Int := 16

/-- Linux `-ENODEV` magnitude. -/
def ENODEV : Int := 19

/-- The `ARM_EXCEPTION_HYP_REQ` exit code.  Its numeric value lives in an
arch header outside the sources; the embedded code only ever stores and
compares it symbolically, so any fixed token works. -/
def ARM_EXCEPTION_HYP_REQ : Nat := 7

/-- Fuel-bounded helper for `ffz`: first zero bit of `w`, scanning at most
`fuel` bits. -/
def ffzAux : Nat → Nat → Nat
  | 0, _ => 0
  | fuel + 1, w => if w % 2 = 0 then 0 else ffzAux fuel (w / 2) + 1

/-- Linux `ffz`: index of the first zero bit of a 64-bit word.  Like the C
builtin it is only meaningful for `w ≠ ~0UL`. -/
def ffz (w : Nat) : Nat := ffzAux 64 w

/-- The scan loop of `pkvm_guest_iommu_alloc_id`: walk `guest_domains`
word by word and return `ffz` of the first word that is not all-ones. -/
def allocIdScan : List Nat → Option Nat
  | [] => none
  | w :: ws => if w ≠ UL_MAX then some (ffz w) else allocIdScan ws

/-- `pkvm_guest_iommu_alloc_id`: linear scan of the `guest_domains` bitmap
for a word with a zero bit; on success returns
`ffz(word) + (KVM_IOMMU_MAX_DOMAINS >> 1)`, otherwise `-EBUSY`.
`maxD` stands for `KVM_IOMMU_MAX_DOMAINS` (defined in `nvhe/iommu.h`,
outside the sources) and `words` for the `guest_domains` array. -/
def pkvm_guest_iommu_alloc_id (maxD : Nat) (words : List Nat) : Int :=
  match allocIdScan words with
  | some z => Int.ofNat (z + maxD / 2)
  | none => -EBUSY

/-- `pkvm_guest_iommu_free_id`: subtract the guest base
`KVM_IOMMU_MAX_DOMAINS >> 1`, bounds-check against
`KVM_IOMMU_MAX_GUEST_DOMAINS = KVM_IOMMU_MAX_DOMAINS >> 1` (no-op when out
of range), then clear bit `id % BITS_PER_LONG` of word
`id / BITS_PER_LONG`. -/
def pkvm_guest_iommu_free_id (maxD : Nat) (words : List Nat)
    (domain_id : Int) : List Nat :=
  let d : Int := domain_id - Int.ofNat (maxD / 2)
  if d < 0 ∨ d ≥ Int.ofNat (maxD / 2) then words
  else
    let dn := d.toNat
    words.set (dn / BITS_PER_LONG)
      ((words.getD (dn / BITS_PER_LONG) 0) &&&
        (UL_MAX ^^^ (1 <<< (dn % BITS_PER_LONG))))

/-- Bit `n` of the `guest_domains` bitmap viewed as a flat bit string:
bit `n % 64` of word `n / 64`. -/
def bmTestBit (words : List Nat) (n : Nat) : Bool :=
  Nat.testBit (words.getD (n / BITS_PER_LONG) 0) (n % BITS_PER_LONG)

/-- A record in the vCPU hyp-request area.  `map ipa size` is a
`KVM_HYP_REQ_TYPE_MAP` record with its `req->map.guest_ipa` and
`req->map.size` fields; `other` stands for any other pending request
(for example one posted from inside the underlying driver). -/
inductive HypReq where
  | map (ipa : Nat) (size : Nat)
  | other
deriving DecidableEq

/-- Observable external events performed by a handler, in program order.
`lock`/`unlock` are operations on `pviommu_guest_domain_lock`; the `drv*`
events are the calls into the underlying IOMMU driver with their
arguments and result; `allocId`/`freeId` are the domain-ID allocator
calls; `reqReserve` is a successful `pkvm_hyp_req_reserve`. -/
inductive Event where
  | lock
  | unlock
  | allocId (r : Int)
  | freeId (id : Int)
  | drvAllocDomain (id : Int) (r : Int)
  | drvFreeDomain (id : Nat) (r : Int)
  | drvMapPages (domain iova pa pgsize pgcount prot : Nat) (mapped : Nat)
  | drvUnmapPages (domain iova pgsize pgcount : Nat) (unmapped : Nat)
  | drvAttachDev (iommu domain sid pasid pasidBits : Nat) (r : Int)
  | drvDetachDev (iommu domain sid pasid : Nat) (r : Int)
  | reqReserve (ipa size : Nat)
deriving DecidableEq

/-- The SMCCC return registers written by `smccc_set_retval`. -/
structure Retval where
  r0 : Int
  r1 : Nat
  r2 : Nat
  r3 : Nat
deriving DecidableEq

/-- Hypervisor state a guest pvIOMMU hypercall can read or write:
the `guest_domains` bitmap and the vCPU hyp-request area. -/
structure GState where
  words : List Nat
  reqs : List HypReq
deriving DecidableEq

/-- Result of one handler invocation.  `handled` is the C `bool` return
value (`false` means the trap is propagated to the host as an exit);
`ret` is the value written by `smccc_set_retval`, if any; `exitCode` is
the value written through `*exit_code`, if any; `elrDelta` is the net
adjustment applied to the exception-return PC (`ELR_EL2`); `words` and
`reqs` are the final hypervisor state; `trace` lists the external events
in program order. -/
structure HvcOut where
  handled : Bool
  ret : Option Retval
  exitCode : Option Nat
  elrDelta : Int
  words : List Nat
  reqs : List HypReq
  trace : List Event
deriving DecidableEq

/-- `__need_req`: the request area holds a pending (unserviced) request,
i.e. its first record's type is not `KVM_HYP_LAST_REQ`. -/
def __need_req (reqs : List HypReq) : Bool := reqs ≠ []

/-- `__smccc_prot_linux`: translate the SMCCC wire protection bitmask
(READ=1, WRITE=2, CACHE=4, NOEXEC=8, MMIO=16, PRIV=32) into the Linux
`IOMMU_*` form (same bit positions in `linux/iommu.h`). -/
def __smccc_prot_linux (prot : Nat) : Nat :=
  (if prot &&& 1 ≠ 0 then 1 else 0) |||
  (if prot &&& 2 ≠ 0 then 2 else 0) |||
  (if prot &&& 4 ≠ 0 then 4 else 0) |||
  (if prot &&& 8 ≠ 0 then 8 else 0) |||
  (if prot &&& 16 ≠ 0 then 16 else 0) |||
  (if prot &&& 32 ≠ 0 then 32 else 0)

/-- Intermediate result of the page loop in `pkvm_guest_iommu_map`. -/
structure MapLoopRes where
  total : Nat
  smcccRet : Int
  reqs : List HypReq
  exitCode : Option Nat
  trace : List Event
deriving DecidableEq

/-- The `while (pgcount--)` loop of `pkvm_guest_iommu_map`.  Each
iteration resolves the current `ipa` through the guest stage-2 walker
(`pkvm_get_guest_pa`, inlined here: `walk ipa = some pa` models a valid
leaf resolving to physical address `pa`, `none` models a failed walk or
an invalid pte; on `none` a `KVM_HYP_REQ_TYPE_MAP` request for
`(ipa, pgsize * pgcount)` is reserved when `reserveOk` — note `pgcount`
has already been decremented by the loop header — and `*exit_code` is
set), then calls `kvm_iommu_map_pages(domain, iova, pa, pgsize, 1,
prot)`, modelled by the oracle `drvMap` returning the mapped byte count
together with whether the driver posted a request to the request area. -/
def mapLoop (walk : Nat → Option Nat) (reserveOk : Bool)
    (drvMap : Nat → Nat → Nat → Nat → Nat → Nat → Nat × Bool)
    (domain pgsize prot : Nat) :
    Nat → Nat → Nat → Nat → List HypReq → List Event → MapLoopRes
  | 0, _, _, total, reqs, tr =>
    ⟨total, SMCCC_RET_SUCCESS, reqs, none, tr⟩
  | r + 1, ipa, iova, total, reqs, tr =>
    match walk ipa with
    | none =>
      if reserveOk then
        ⟨total, SMCCC_RET_SUCCESS,
          reqs ++ [HypReq.map ipa ((pgsize * r) % U64_MOD)],
          some ARM_EXCEPTION_HYP_REQ,
          tr ++ [Event.reqReserve ipa ((pgsize * r) % U64_MOD)]⟩
      else
        ⟨total, SMCCC_RET_SUCCESS, reqs, none, tr⟩
    | some pa =>
      let m := drvMap domain iova pa pgsize 1 prot
      let reqs' := if m.2 then reqs ++ [HypReq.other] else reqs
      let tr' := tr ++ [Event.drvMapPages domain iova pa pgsize 1 prot m.1]
      if m.1 = 0 then
        if __need_req reqs' then
          ⟨total, SMCCC_RET_SUCCESS, reqs', none, tr'⟩
        else
          ⟨total, SMCCC_RET_INVALID_PARAMETER, reqs', none, tr'⟩
      else
        mapLoop walk reserveOk drvMap domain pgsize prot
          r ((ipa + pgsize) % U64_MOD) ((iova + pgsize) % U64_MOD)
          ((total + pgsize) % U64_MOD) reqs' tr'

/-- `pkvm_guest_iommu_map`: reject `pgsize != PAGE_SIZE` with
`InvalidParam`; then `prev_guest_req` — if the request area already holds
a pending request, rewind the PC by 4 and exit with
`ARM_EXCEPTION_HYP_REQ`; otherwise run the page loop and return
`(smccc_ret, total_mapped)` to the guest. -/
def pkvm_guest_iommu_map (walk : Nat → Option Nat) (reserveOk : Bool)
    (drvMap : Nat → Nat → Nat → Nat → Nat → Nat → Nat × Bool)
    (st : GState) (domain iova ipa pgsize pgcount prot : Nat) : HvcOut :=
  if pgsize ≠ PAGE_SIZE then
    ⟨true, some ⟨SMCCC_RET_INVALID_PARAMETER, 0, 0, 0⟩, none, 0,
      st.words, st.reqs, []⟩
  else if __need_req st.reqs then
    ⟨false, none, some ARM_EXCEPTION_HYP_REQ, -4, st.words, st.reqs, []⟩
  else
    let L := mapLoop walk reserveOk drvMap domain pgsize
      (__smccc_prot_linux prot) pgcount ipa iova 0 st.reqs []
    ⟨true, some ⟨L.smcccRet, L.total, 0, 0⟩, L.exitCode, 0,
      st.words, L.reqs, L.trace⟩

/-- `pkvm_guest_iommu_unmap`: reject `pgsize != PAGE_SIZE`; stale-request
check as in map; then one call to `kvm_iommu_unmap_pages(domain, iova,
pgsize, pgcount)` (oracle `drvUnmap`, returning the unmapped byte count
and whether the driver posted a request); report `InvalidParam` exactly
when the count is below `pgsize * pgcount` (as a u64 product) and no
request is pending, and always return the count in r1. -/
def pkvm_guest_iommu_unmap (drvUnmap : Nat → Nat → Nat → Nat → Nat × Bool)
    (st : GState) (domain iova pgsize pgcount : Nat) : HvcOut :=
  if pgsize ≠ PAGE_SIZE then
    ⟨true, some ⟨SMCCC_RET_INVALID_PARAMETER, 0, 0, 0⟩, none, 0,
      st.words, st.reqs, []⟩
  else if __need_req st.reqs then
    ⟨false, none, some ARM_EXCEPTION_HYP_REQ, -4, st.words, st.reqs, []⟩
  else
    let size := (pgsize * pgcount) % U64_MOD
    let u := drvUnmap domain iova pgsize pgcount
    let unmapped := u.1 % U64_MOD
    let reqs' := if u.2 then st.reqs ++ [HypReq.other] else st.reqs
    let r0 :=
      if unmapped < size ∧ ¬ __need_req reqs' then
        SMCCC_RET_INVALID_PARAMETER
      else SMCCC_RET_SUCCESS
    ⟨true, some ⟨r0, unmapped, 0, 0⟩, none, 0, st.words, reqs',
      [Event.drvUnmapPages domain iova pgsize pgcount unmapped]⟩

/-- C conversion of a `u64` to `int` (used when
`pkvm_guest_iommu_free_domain` passes its `u64` argument to
`pkvm_guest_iommu_free_id`): truncate to 32 bits, two's complement. -/
def u64ToInt (x : Nat) : Int :=
  let m := x % 2 ^ 32
  if m < 2 ^ 31 then Int.ofNat m else Int.ofNat m - 2 ^ 32

/-- Lock-discipline check on an event trace, starting from lock depth
`d`: every `unlock` and every non-lock event must happen with the lock
held, and the trace must end with the lock released. -/
def wellLockedFrom : Nat → List Event → Bool
  | d, [] => d = 0
  | d, Event.lock :: es => wellLockedFrom (d + 1) es
  | d, Event.unlock :: es => d ≠ 0 && wellLockedFrom (d - 1) es
  | d, _ :: es => d ≠ 0 && wellLockedFrom d es

/-- A trace is well locked when, starting unlocked, every event happens
under the lock and the lock is released by the end. -/
def wellLocked (tr : List Event) : Bool := wellLockedFrom 0 tr

/-- `pkvm_guest_iommu_alloc_domain`: under `pviommu_guest_domain_lock`,
allocate a guest-half ID; on allocator failure unlock and return
`InvalidParam` (the C code reaches `out_inval` and unlocks a second
time, reproduced faithfully in the trace); otherwise call
`kvm_iommu_alloc_domain(domain_id, KVM_IOMMU_DOMAIN_ANY_TYPE)` (oracle
`drvAlloc`).  On `-ENOMEM`: free the ID, unlock, rewind the PC by 4 and
exit with `ARM_EXCEPTION_HYP_REQ`, writing no return value.  On any
other failure: free the ID, unlock, return `InvalidParam`.  On success:
unlock and return `(SUCCESS, domain_id)`. -/
def pkvm_guest_iommu_alloc_domain (drvAlloc : Int → Int) (maxD : Nat)
    (st : GState) : HvcOut :=
  let did := pkvm_guest_iommu_alloc_id maxD st.words
  if did < 0 then
    ⟨true, some ⟨SMCCC_RET_INVALID_PARAMETER, 0, 0, 0⟩, none, 0,
      st.words, st.reqs,
      [Event.lock, Event.allocId did, Event.unlock, Event.unlock]⟩
  else
    let r := drvAlloc did
    if r = -ENOMEM then
      ⟨false, none, some ARM_EXCEPTION_HYP_REQ, -4,
        pkvm_guest_iommu_free_id maxD st.words did, st.reqs,
        [Event.lock, Event.allocId did, Event.drvAllocDomain did r,
          Event.freeId did, Event.unlock]⟩
    else if r ≠ 0 then
      ⟨true, some ⟨SMCCC_RET_INVALID_PARAMETER, 0, 0, 0⟩, none, 0,
        pkvm_guest_iommu_free_id maxD st.words did, st.reqs,
        [Event.lock, Event.allocId did, Event.drvAllocDomain did r,
          Event.freeId did, Event.unlock]⟩
    else
      ⟨true, some ⟨SMCCC_RET_SUCCESS, did.toNat, 0, 0⟩, none, 0,
        st.words, st.reqs,
        [Event.lock, Event.allocId did, Event.drvAllocDomain did r,
          Event.unlock]⟩

/-- `pkvm_guest_iommu_free_domain`: under the lock, ask the driver to
free (`kvm_iommu_free_domain`, oracle `drvFree`); on success release the
ID bit; report `InvalidParam` exactly when the driver refused. -/
def pkvm_guest_iommu_free_domain (drvFree : Nat → Int) (maxD : Nat)
    (st : GState) (domain_id : Nat) : HvcOut :=
  let r := drvFree domain_id
  let words' :=
    if r = 0 then pkvm_guest_iommu_free_id maxD st.words (u64ToInt domain_id)
    else st.words
  ⟨true,
    some ⟨if r ≠ 0 then SMCCC_RET_INVALID_PARAMETER else SMCCC_RET_SUCCESS,
      0, 0, 0⟩,
    none, 0, words', st.reqs,
    if r = 0 then
      [Event.lock, Event.drvFreeDomain domain_id r,
        Event.freeId (u64ToInt domain_id), Event.unlock]
    else
      [Event.lock, Event.drvFreeDomain domain_id r, Event.unlock]⟩

/-- `pkvm_guest_iommu_attach_dev`: translate `(viommu, vsid)` through the
route table (`pkvm_pviommu_route`, oracle `route`; `none` models a
nonzero return); on success call `kvm_iommu_attach_dev(iommu, domain,
sid, pasid, pasid_bits)` (oracle `drvAttach`).  `-ENOMEM` triggers
`pkvm_pviommu_hyp_req` (PC rewind by 4 and `ARM_EXCEPTION_HYP_REQ`
exit); otherwise a nonzero result maps to `InvalidParam` and zero to
`SUCCESS`. -/
def pkvm_guest_iommu_attach_dev (route : Nat → Nat → Option (Nat × Nat))
    (drvAttach : Nat → Nat → Nat → Nat → Nat → Int) (st : GState)
    (iommu_id sid pasid domain_id pasid_bits : Nat) : HvcOut :=
  match route iommu_id sid with
  | none =>
    ⟨true, some ⟨SMCCC_RET_INVALID_PARAMETER, 0, 0, 0⟩, none, 0,
      st.words, st.reqs, []⟩
  | some (piommu, psid) =>
    let r := drvAttach piommu domain_id psid pasid pasid_bits
    if r = -ENOMEM then
      ⟨false, none, some ARM_EXCEPTION_HYP_REQ, -4, st.words, st.reqs,
        [Event.drvAttachDev piommu domain_id psid pasid pasid_bits r]⟩
    else
      ⟨true,
        some ⟨if r ≠ 0 then SMCCC_RET_INVALID_PARAMETER
          else SMCCC_RET_SUCCESS, 0, 0, 0⟩,
        none, 0, st.words, st.reqs,
        [Event.drvAttachDev piommu domain_id psid pasid pasid_bits r]⟩

/-- `pkvm_guest_iommu_detach_dev`: route translation, then
`kvm_iommu_detach_dev`; any nonzero result maps to `InvalidParam`. -/
def pkvm_guest_iommu_detach_dev (route : Nat → Nat → Option (Nat × Nat))
    (drvDetach : Nat → Nat → Nat → Nat → Int) (st : GState)
    (iommu sid pasid domain : Nat) : HvcOut :=
  match route iommu sid with
  | none =>
    ⟨true, some ⟨SMCCC_RET_INVALID_PARAMETER, 0, 0, 0⟩, none, 0,
      st.words, st.reqs, []⟩
  | some (piommu, psid) =>
    let r := drvDetach piommu domain psid pasid
    ⟨true,
      some ⟨if r ≠ 0 then SMCCC_RET_INVALID_PARAMETER
        else SMCCC_RET_SUCCESS, 0, 0, 0⟩,
      none, 0, st.words, st.reqs,
      [Event.drvDetachDev piommu domain psid pasid r]⟩

/-- `pkvm_guest_iommu_version`: return `(SUCCESS, PVIOMMU_VERSION)`. -/
def pkvm_guest_iommu_version (st : GState) : HvcOut :=
  ⟨true, some ⟨SMCCC_RET_SUCCESS, PVIOMMU_VERSION, 0, 0⟩, none, 0,
    st.words, st.reqs, []⟩

/-- `pkvm_guest_iommu_get_feature`: for
`PVIOMMU_REQUEST_FEATURE_PGSZ_BITMAP` return `(SUCCESS, PAGE_SIZE)`
(only the smallest granule is advertised); any other selector returns
`InvalidParam`. -/
def pkvm_guest_iommu_get_feature (st : GState) (req_feature : Nat) :
    HvcOut :=
  if req_feature = PVIOMMU_REQUEST_FEATURE_PGSZ_BITMAP then
    ⟨true, some ⟨SMCCC_RET_SUCCESS, PAGE_SIZE, 0, 0⟩, none, 0,
      st.words, st.reqs, []⟩
  else
    ⟨true, some ⟨SMCCC_RET_INVALID_PARAMETER, 0, 0, 0⟩, none, 0,
      st.words, st.reqs, []⟩

/-- One MMIO range of a device, `struct pkvm_dev_resource`. -/
structure DevResource where
  base : Nat
  size : Nat
deriving DecidableEq

/-- A registered passthrough-eligible device, `struct pkvm_device`.
`ctxt` is the owning VM (`NULL` = host/hyp side, modelled as `none`;
a VM pointer is modelled as a VM handle).  `iommus` lists the
`(id, endpoint)` pairs of `struct pkvm_dev_iommu`.  `resetRet` models
the return value of the registered `reset_handler` (`0` when no handler
is registered, matching `pkvm_device_reset`). -/
structure PkvmDevice where
  group_id : Nat
  resources : List DevResource
  iommus : List (Nat × Nat)
  ctxt : Option Nat
  resetRet : Int
deriving DecidableEq

/-- `pkvm_get_device`: index of the first registered device one of whose
resources contains `addr`. -/
def pkvm_get_device (devs : List PkvmDevice) (addr : Nat) : Option Nat :=
  devs.findIdx?
    (fun d => d.resources.any
      (fun r => decide (r.base ≤ addr) && decide (addr < r.base + r.size)))

/-- `pkvm_get_device_by_iommu`: index of the first registered device with
an IOMMU endpoint matching `(id, endpoint)`. -/
def pkvm_get_device_by_iommu (devs : List PkvmDevice) (id endpoint : Nat) :
    Option Nat :=
  devs.findIdx? (fun d => d.iommus.any
    (fun e => decide (e.1 = id) && decide (e.2 = endpoint)))

/-- `pkvm_device_reset`: run the registered reset handler, `0` without
one. -/
def pkvm_device_reset (dev : PkvmDevice) : Int := dev.resetRet

/-- The resource loop of `__pkvm_device_assign`: return the first nonzero
`hyp_check_range_owned(base, size)` result (oracle `rangeOwned`), else
`0`. -/
def checkResourcesOwned (rangeOwned : Nat → Nat → Int) :
    List DevResource → Int
  | [] => 0
  | r :: rs =>
    let t := rangeOwned r.base r.size
    if t ≠ 0 then t else checkResourcesOwned rangeOwned rs

/-- `__pkvm_device_assign`: check every resource range is hyp-owned, run
the reset handler, then set `dev->ctxt = vm`; on any failure the device
is left unchanged. -/
def __pkvm_device_assign (rangeOwned : Nat → Nat → Int)
    (dev : PkvmDevice) (vm : Nat) : Int × PkvmDevice :=
  let c := checkResourcesOwned rangeOwned dev.resources
  if c ≠ 0 then (c, dev)
  else
    let r := pkvm_device_reset dev
    if r ≠ 0 then (r, dev)
    else (0, { dev with ctxt := some vm })

/-- The forward loop of `__pkvm_group_assign`: walk `registered_devices`
in order; skip devices of other groups; break with `-EPERM` on a device
that already has a `ctxt`; otherwise `__pkvm_device_assign` it, breaking
on failure.  Returns `(ret, devices after the loop, value of the index
variable at the break)` — the last component mirrors the C `i` used by
the rollback and is the list length when the loop completes. -/
def groupAssignGo (rangeOwned : Nat → Nat → Int) (group_id vm : Nat) :
    List PkvmDevice → Int × List PkvmDevice × Nat
  | [] => (0, [], 0)
  | d :: ds =>
    if d.group_id ≠ group_id then
      let rest := groupAssignGo rangeOwned group_id vm ds
      (rest.1, d :: rest.2.1, rest.2.2 + 1)
    else if d.ctxt.isSome then
      (-EPERM, d :: ds, 0)
    else
      let a := __pkvm_device_assign rangeOwned d vm
      if a.1 ≠ 0 then (a.1, a.2 :: ds, 0)
      else
        let rest := groupAssignGo rangeOwned group_id vm ds
        (rest.1, a.2 :: rest.2.1, rest.2.2 + 1)

/-- The rollback loop `while (i--) registered_devices[i].ctxt = NULL;`:
clear the `ctxt` of the first `k` devices, whatever their group. -/
def clearCtxtPrefix : List PkvmDevice → Nat → List PkvmDevice
  | ds, 0 => ds
  | [], _ + 1 => []
  | d :: ds, k + 1 => { d with ctxt := none } :: clearCtxtPrefix ds k

/-- `__pkvm_group_assign`: run the forward loop; on failure run the
rollback loop over every index below the break point. -/
def __pkvm_group_assign (rangeOwned : Nat → Nat → Int)
    (group_id vm : Nat) (devs : List PkvmDevice) :
    Int × List PkvmDevice :=
  let g := groupAssignGo rangeOwned group_id vm devs
  if g.1 ≠ 0 then (g.1, clearCtxtPrefix g.2.1 g.2.2) else (0, g.2.1)

/-- A default device record, used only for in-range list indexing. -/
def dfltDev : PkvmDevice := ⟨0, [], [], none, 0⟩

/-- `pkvm_host_map_guest_mmio`: find the device owning page frame `pfn`;
if it has no owner yet, group-assign its whole group to `vm`; if it is
owned by a different VM, fail with `-EPERM`; then donate the page into
the guest stage-2 (`pkvm_hyp_donate_guest`, oracle result `donate`).
Returns the result and the updated registry. -/
def pkvm_host_map_guest_mmio (rangeOwned : Nat → Nat → Int) (donate : Int)
    (devs : List PkvmDevice) (vm : Nat) (pfn gfn : Nat) :
    Int × List PkvmDevice :=
  match pkvm_get_device devs (pfn * PAGE_SIZE) with
  | none => (-ENODEV, devs)
  | some di =>
    let dev := devs.getD di dfltDev
    if dev.ctxt = none then
      let g := __pkvm_group_assign rangeOwned dev.group_id vm devs
      if g.1 ≠ 0 then (g.1, g.2) else (donate, g.2)
    else if dev.ctxt ≠ some vm then (-EPERM, devs)
    else (donate, devs)

/-- Group atomicity (spec §8, invariant 3): whenever a device has an
owner, every device of the same group has that same owner. -/
def groupAtomic (devs : List PkvmDevice) : Bool :=
  devs.all fun d =>
    d.ctxt.isNone ||
      devs.all fun e => !(e.group_id == d.group_id) || (e.ctxt == d.ctxt)

/-- Result of `pkvm_get_device_pa`. -/
structure DevPaRes where
  ret : Int
  pa : Option Nat
  reqs : List HypReq
  exitCode : Option Nat
  elrDelta : Int
deriving DecidableEq

/-- `pkvm_get_device_pa`: resolve `ipa` through the guest stage-2 walker
(oracle `walk`; `none` models a failed walk or invalid pte).  On a
fault, reserve a `KVM_HYP_REQ_TYPE_MAP` request for `(ipa, PAGE_SIZE)`
(when `reserveOk`; a failed reservation returns `-ENOMEM` with nothing
posted), set `*exit_code = ARM_EXCEPTION_HYP_REQ`, rewind `ELR` by 4 and
return `-ENODEV`. -/
def pkvm_get_device_pa (walk : Nat → Option Nat) (reserveOk : Bool)
    (reqs : List HypReq) (ipa : Nat) : DevPaRes :=
  match walk ipa with
  | none =>
    if reserveOk then
      ⟨-ENODEV, none, reqs ++ [HypReq.map ipa PAGE_SIZE],
        some ARM_EXCEPTION_HYP_REQ, -4⟩
    else ⟨-ENOMEM, none, reqs, none, 0⟩
  | some pa => ⟨0, some pa, reqs, none, 0⟩

/-- The device/resource scan of `pkvm_device_request_mmio`: some device
owned by `vm` has a resource fully containing the page
`[token, token + PAGE_SIZE)`. -/
def inVmResources (devs : List PkvmDevice) (vm : Nat) (token : Nat) :
    Bool :=
  devs.any fun d =>
    (d.ctxt == some vm) &&
      d.resources.any fun r =>
        decide (r.base ≤ token) &&
          decide (token + PAGE_SIZE ≤ r.base + r.size)

/-- `pkvm_device_request_mmio`: resolve the guest `ipa` (r1) to a PA; on
failure propagate the exit (returning `false`).  Otherwise return the PA
as a token with `SUCCESS` when the page lies inside a resource of a
device owned by the calling VM, else `InvalidParam`. -/
def pkvm_device_request_mmio (walk : Nat → Option Nat) (reserveOk : Bool)
    (devs : List PkvmDevice) (vm : Nat) (st : GState) (ipa : Nat) :
    HvcOut :=
  let g := pkvm_get_device_pa walk reserveOk st.reqs ipa
  if g.ret ≠ 0 then
    ⟨false, none, g.exitCode, g.elrDelta, st.words, g.reqs, []⟩
  else
    match g.pa with
    | some token =>
      if inVmResources devs vm token then
        ⟨true, some ⟨SMCCC_RET_SUCCESS, token, 0, 0⟩, none, 0,
          st.words, g.reqs, []⟩
      else
        ⟨true, some ⟨SMCCC_RET_INVALID_PARAMETER, 0, 0, 0⟩, none, 0,
          st.words, g.reqs, []⟩
    | none =>
      ⟨true, some ⟨SMCCC_RET_INVALID_PARAMETER, 0, 0, 0⟩, none, 0,
        st.words, g.reqs, []⟩

/-- `ARM_SMCCC_VENDOR_HYP_KVM_IOMMU_MAP_FUNC_ID`.  The numeric values of
the nine function IDs live in an SMCCC header outside the sources (and
the in-tree documentation table even has a collision, see spec §9); the
dispatcher relies only on the IDs being pairwise distinct, so the model
uses small distinct tokens. -/
def ARM_SMCCC_VENDOR_HYP_KVM_IOMMU_MAP_FUNC_ID : Nat := 0

/-- `ARM_SMCCC_VENDOR_HYP_KVM_IOMMU_UNMAP_FUNC_ID`. -/
def ARM_SMCCC_VENDOR_HYP_KVM_IOMMU_UNMAP_FUNC_ID : Nat := 1

/-- `ARM_SMCCC_VENDOR_HYP_KVM_IOMMU_ATTACH_DEV_FUNC_ID`. -/
def ARM_SMCCC_VENDOR_HYP_KVM_IOMMU_ATTACH_DEV_FUNC_ID : Nat := 2

/-- `ARM_SMCCC_VENDOR_HYP_KVM_IOMMU_DETACH_DEV_FUNC_ID`. -/
def ARM_SMCCC_VENDOR_HYP_KVM_IOMMU_DETACH_DEV_FUNC_ID : Nat := 3

/-- `ARM_SMCCC_VENDOR_HYP_KVM_IOMMU_VERSION_FUNC_ID`. -/
def ARM_SMCCC_VENDOR_HYP_KVM_IOMMU_VERSION_FUNC_ID : Nat := 4

/-- `ARM_SMCCC_VENDOR_HYP_KVM_IOMMU_GET_FEATURE_FUNC_ID`. -/
def ARM_SMCCC_VENDOR_HYP_KVM_IOMMU_GET_FEATURE_FUNC_ID : Nat := 5

/-- `ARM_SMCCC_VENDOR_HYP_KVM_IOMMU_ALLOC_DOMAIN_FUNC_ID`. -/
def ARM_SMCCC_VENDOR_HYP_KVM_IOMMU_ALLOC_DOMAIN_FUNC_ID : Nat := 6

/-- `ARM_SMCCC_VENDOR_HYP_KVM_IOMMU_FREE_DOMAIN_FUNC_ID`. -/
def ARM_SMCCC_VENDOR_HYP_KVM_IOMMU_FREE_DOMAIN_FUNC_ID : Nat := 7

/-- `ARM_SMCCC_KVM_FUNC_DEV_REQ_DMA` function ID (token). -/
def ARM_SMCCC_KVM_FUNC_DEV_REQ_DMA : Nat := 8

/-- The guest hypercall registers as read by `smccc_get_function` and
`smccc_get_arg1` … `smccc_get_arg6`. -/
structure HvcRegs where
  fn : Nat
  r1 : Nat
  r2 : Nat
  r3 : Nat
  r4 : Nat
  r5 : Nat
  r6 : Nat
deriving DecidableEq

/-- The external collaborators of the dispatcher, bundled: the stage-2
walker (`kvm_pgtable_get_leaf` plus the pte helpers), the request-area
reservation, the underlying IOMMU driver entry points, and the route
table lookup (`pkvm_pviommu_route`; `none` models a nonzero return). -/
structure Oracles where
  walk : Nat → Option Nat
  reserveOk : Bool
  drvAlloc : Int → Int
  drvFree : Nat → Int
  drvMap : Nat → Nat → Nat → Nat → Nat → Nat → Nat × Bool
  drvUnmap : Nat → Nat → Nat → Nat → Nat × Bool
  drvAttach : Nat → Nat → Nat → Nat → Nat → Int
  drvDetach : Nat → Nat → Nat → Nat → Int
  route : Nat → Nat → Option (Nat × Nat)
  tokenOf : Nat → Nat × Nat

/-- `kvm_handle_pviommu_hvc`: decode the function ID and run the matching
handler; unknown IDs fall through with `false` and no other effect.
(The `refill_hyp_pool` preamble only transfers pages between the host
memcache and the VM pool; it has no effect observable in this model.) -/
def kvm_handle_pviommu_hvc (o : Oracles) (maxD : Nat) (st : GState)
    (c : HvcRegs) : HvcOut :=
  if c.fn = ARM_SMCCC_VENDOR_HYP_KVM_IOMMU_MAP_FUNC_ID then
    pkvm_guest_iommu_map o.walk o.reserveOk o.drvMap st
      c.r1 c.r2 c.r3 c.r4 c.r5 c.r6
  else if c.fn = ARM_SMCCC_VENDOR_HYP_KVM_IOMMU_UNMAP_FUNC_ID then
    pkvm_guest_iommu_unmap o.drvUnmap st c.r1 c.r2 c.r3 c.r4
  else if c.fn = ARM_SMCCC_VENDOR_HYP_KVM_IOMMU_ATTACH_DEV_FUNC_ID then
    pkvm_guest_iommu_attach_dev o.route o.drvAttach st
      c.r1 c.r2 c.r3 c.r4 c.r5
  else if c.fn = ARM_SMCCC_VENDOR_HYP_KVM_IOMMU_DETACH_DEV_FUNC_ID then
    pkvm_guest_iommu_detach_dev o.route o.drvDetach st c.r1 c.r2 c.r3 c.r4
  else if c.fn = ARM_SMCCC_VENDOR_HYP_KVM_IOMMU_VERSION_FUNC_ID then
    pkvm_guest_iommu_version st
  else if c.fn = ARM_SMCCC_VENDOR_HYP_KVM_IOMMU_GET_FEATURE_FUNC_ID then
    pkvm_guest_iommu_get_feature st c.r2
  else if c.fn = ARM_SMCCC_VENDOR_HYP_KVM_IOMMU_ALLOC_DOMAIN_FUNC_ID then
    pkvm_guest_iommu_alloc_domain o.drvAlloc maxD st
  else if c.fn = ARM_SMCCC_VENDOR_HYP_KVM_IOMMU_FREE_DOMAIN_FUNC_ID then
    pkvm_guest_iommu_free_domain o.drvFree maxD st c.r1
  else
    ⟨false, none, none, 0, st.words, st.reqs, []⟩

/-- Modelled from the spec: the `DEV_REQ_DMA` handler body is missing
from the sources (only the ABI documentation and the device-endpoint
lookup `pkvm_get_device_by_iommu` are under them).  Per the spec's
handler description and ABI table: given `(viommu_id, vsid)` in r1/r2,
translate through the per-VM route table to `(phys_iommu, phys_sid)`;
find the registered device with that IOMMU endpoint
(`pkvm_get_device_by_iommu`, embedded from the sources); on success
return `SUCCESS` with the device's 128-bit attestation token as two
u64s in r1/r2 (`tokenOf`, indexed by the device, models the
platform-specific attestation channel); a failed route or an unknown
endpoint returns `InvalidParam`. -/
def pkvm_dev_req_dma (route : Nat → Nat → Option (Nat × Nat))
    (tokenOf : Nat → Nat × Nat) (devs : List PkvmDevice) (st : GState)
    (viommu_id vsid : Nat) : HvcOut :=
  match route viommu_id vsid with
  | none =>
    ⟨true, some ⟨SMCCC_RET_INVALID_PARAMETER, 0, 0, 0⟩, none, 0,
      st.words, st.reqs, []⟩
  | some (piommu, psid) =>
    match pkvm_get_device_by_iommu devs piommu psid with
    | none =>
      ⟨true, some ⟨SMCCC_RET_INVALID_PARAMETER, 0, 0, 0⟩, none, 0,
        st.words, st.reqs, []⟩
    | some di =>
      ⟨true, some ⟨SMCCC_RET_SUCCESS, (tokenOf di).1, (tokenOf di).2, 0⟩,
        none, 0, st.words, st.reqs, []⟩

/-- Modelled from the spec: the top-level routing of the ninth vendor
hypercall, `DEV_REQ_DMA`, is not under the sources; per the spec's
hypercall table a guest `DEV_REQ_DMA` call goes to the `DEV_REQ_DMA`
handler with `(viommu_id, vsid)` in r1/r2, and every other function ID
goes through `kvm_handle_pviommu_hvc`. -/
def pviommu_dispatch (o : Oracles) (maxD : Nat)
    (devs : List PkvmDevice) (st : GState) (c : HvcRegs) : HvcOut :=
  if c.fn = ARM_SMCCC_KVM_FUNC_DEV_REQ_DMA then
    pkvm_dev_req_dma o.route o.tokenOf devs st c.r1 c.r2
  else
    kvm_handle_pviommu_hvc o maxD st c

/-- The registry for the group-assign rollback scenario: two groups,
group 1 fully owned by VM 1 (devices 0 and 3), group 2 unowned
(devices 1 and 2), with device 2 carrying a failing reset handler. -/
def c3Devs : List PkvmDevice :=
  [⟨1, [⟨0x1000, 0x1000⟩], [], some 1, 0⟩,
   ⟨2, [⟨0x2000, 0x1000⟩], [], none, 0⟩,
   ⟨2, [⟨0x3000, 0x1000⟩], [], none, 5⟩,
   ⟨1, [⟨0x4000, 0x1000⟩], [], some 1, 0⟩]

/-- A handler outcome visible to the caller: either an SMCCC return
value was written for the guest, or the handler returned `false` and
the trap is propagated to the host as an exit. -/
def producesResultOrExit (h : HvcOut) : Prop :=
  h.ret.isSome = true ∨ h.handled = false

theorem ffz_zero : ffz 0 = 0 := by decide

theorem allocIdScan_zeros (n : Nat) (hn : 1 ≤ n) :
    allocIdScan (List.replicate n 0) = some 0 := by
  cases n with
  | zero => omega
  | succ m =>
    simp [List.replicate, allocIdScan, UL_MAX, ffz_zero]

theorem getD_set_self (l : List Nat) (i a : Nat) (h : i < l.length) :
    (l.set i a).getD i 0 = a := by
  induction l generalizing i with
  | nil => simp at h
  | cons x xs ih =>
    cases i with
    | zero => rfl
    | succ n => exact ih n (Nat.lt_of_succ_lt_succ h)

theorem getD_set_ne (l : List Nat) (i k a : Nat) (h : i ≠ k) :
    (l.set i a).getD k 0 = l.getD k 0 := by
  induction l generalizing i k with
  | nil => rfl
  | cons x xs ih =>
    cases i with
    | zero =>
      cases k with
      | zero => exact absurd rfl h
      | succ m => rfl
    | succ n =>
      cases k with
      | zero => rfl
      | succ m => exact ih n m (fun hh => h (by rw [hh]))

theorem testBit_clrMask (m k : Nat) (hm : m < 64) (hk : k < 64) :
    Nat.testBit (UL_MAX ^^^ (1 <<< m)) k = decide (k ≠ m) := by
  simp only [UL_MAX]
  rw [Nat.one_shiftLeft, Nat.testBit_xor, Nat.testBit_two_pow_sub_one,
    Nat.testBit_two_pow]
  by_cases h : m = k
  · subst h
    simp [hk]
  · simp [h, hk, Ne.symm h]

/-- Claim C10: `pkvm_guest_iommu_free_id` is bounds-checked and a no-op
out of range — for every id below the guest base
`KVM_IOMMU_MAX_DOMAINS/2` or at or above
`base + KVM_IOMMU_MAX_GUEST_DOMAINS` the `guest_domains` bitmap is left
unchanged — and an id in the guest half clears exactly the one bit
`id - base`, leaving every other bit as it was. -/
theorem freeId_bounds (maxD : Nat) (words : List Nat) (id : Int) (j : Nat)
    (hlen : maxD / 2 = BITS_PER_LONG * words.length) :
    ((id < Int.ofNat (maxD / 2) ∨
        Int.ofNat (maxD / 2) + Int.ofNat (maxD / 2) ≤ id) →
      pkvm_guest_iommu_free_id maxD words id = words) ∧
    bmTestBit (pkvm_guest_iommu_free_id maxD words id) j =
      (if Int.ofNat (maxD / 2) ≤ id ∧
          id < Int.ofNat (maxD / 2) + Int.ofNat (maxD / 2) ∧
          Int.ofNat j = id - Int.ofNat (maxD / 2)
        then false else bmTestBit words j) := by
  simp only [BITS_PER_LONG] at hlen
  simp only [pkvm_guest_iommu_free_id, BITS_PER_LONG, bmTestBit,
    Int.ofNat_eq_natCast]
  by_cases hrange : id - ((maxD / 2 : Nat) : Int) < 0 ∨
      id - ((maxD / 2 : Nat) : Int) ≥ ((maxD / 2 : Nat) : Int)
  · rw [if_pos hrange]
    constructor
    · intro _
      rfl
    · rw [if_neg]
      omega
  · rw [if_neg hrange]
    have hd0 : 0 ≤ id - ((maxD / 2 : Nat) : Int) := by omega
    have hdlt : (id - ((maxD / 2 : Nat) : Int)).toNat < 64 * words.length := by
      omega
    constructor
    · intro hout
      omega
    · have hix : (id - ((maxD / 2 : Nat) : Int)).toNat / 64 < words.length := by
        omega
      by_cases hj : j = (id - ((maxD / 2 : Nat) : Int)).toNat
      · rw [hj, getD_set_self words _ _ hix, Nat.testBit_land,
          testBit_clrMask _ _ (Nat.mod_lt _ (by omega)) (Nat.mod_lt _ (by omega))]
        simp only [ne_eq, not_true_eq_false, decide_False, Bool.and_false]
        rw [if_pos]
        omega
      · have hcond : ¬ (((maxD / 2 : Nat) : Int) ≤ id ∧
            id < ((maxD / 2 : Nat) : Int) + ((maxD / 2 : Nat) : Int) ∧
            (j : Int) = id - ((maxD / 2 : Nat) : Int)) := by
          omega
        rw [if_neg hcond]
        by_cases hw : j / 64 = (id - ((maxD / 2 : Nat) : Int)).toNat / 64
        · rw [hw, getD_set_self words _ _ hix, Nat.testBit_land,
            testBit_clrMask _ _ (Nat.mod_lt _ (by omega)) (Nat.mod_lt _ (by omega))]
          have hbit : j % 64 ≠ (id - ((maxD / 2 : Nat) : Int)).toNat % 64 := by
            omega
          rw [decide_eq_true hbit, Bool.and_true]
        · rw [getD_set_ne words _ _ _ (fun h => hw h.symm)]

/-- Witness for `freeId_bounds` at `maxD = 256`, `words = [3, 0]`,
`id = 128`, `j = 0`: the in-range free clears bit 0 of the first word. -/
theorem freeId_bounds_witness :
    256 / 2 = BITS_PER_LONG * ([3, 0] : List Nat).length ∧
    ((((128 : Int) < Int.ofNat (256 / 2) ∨
        Int.ofNat (256 / 2) + Int.ofNat (256 / 2) ≤ (128 : Int)) →
      pkvm_guest_iommu_free_id 256 [3, 0] 128 = [3, 0]) ∧
    bmTestBit (pkvm_guest_iommu_free_id 256 [3, 0] 128) 0 =
      (if Int.ofNat (256 / 2) ≤ (128 : Int) ∧
          (128 : Int) < Int.ofNat (256 / 2) + Int.ofNat (256 / 2) ∧
          Int.ofNat 0 = (128 : Int) - Int.ofNat (256 / 2)
        then false else bmTestBit [3, 0] 0)) :=
  ⟨by decide, freeId_bounds 256 [3, 0] 128 0 (by decide)⟩

theorem set_oob (l : List Nat) (i a : Nat) (h : l.length ≤ i) :
    l.set i a = l := by
  induction l generalizing i with
  | nil => rfl
  | cons x xs ih =>
    cases i with
    | zero => exact absurd h (by simp)
    | succ n =>
      show x :: xs.set n a = x :: xs
      rw [ih n (Nat.le_of_succ_le_succ h)]

theorem freeId_clears_only (maxD : Nat) (words : List Nat) (id : Int)
    (j : Nat)
    (h : bmTestBit (pkvm_guest_iommu_free_id maxD words id) j = true) :
    bmTestBit words j = true := by
  simp only [pkvm_guest_iommu_free_id] at h
  split at h
  · exact h
  · by_cases hlen :
        words.length ≤ (id - Int.ofNat (maxD / 2)).toNat / BITS_PER_LONG
    · rwa [set_oob _ _ _ hlen] at h
    · by_cases hw : (id - Int.ofNat (maxD / 2)).toNat / BITS_PER_LONG =
          j / BITS_PER_LONG
      · simp only [bmTestBit] at h ⊢
        rw [← hw] at h ⊢
        rw [getD_set_self _ _ _ (by omega)] at h
        rw [Nat.testBit_land] at h
        exact ((Bool.and_eq_true _ _).mp h).1
      · simp only [bmTestBit] at h ⊢
        rwa [getD_set_ne _ _ _ _ hw] at h

theorem allocDomain_words_only_clear (drvAlloc : Int → Int) (maxD : Nat)
    (st : GState) (j : Nat)
    (h : bmTestBit
      ((pkvm_guest_iommu_alloc_domain drvAlloc maxD st).words) j = true) :
    bmTestBit st.words j = true := by
  simp only [pkvm_guest_iommu_alloc_domain] at h
  split at h
  · exact h
  · split at h
    · exact freeId_clears_only _ _ _ _ h
    · split at h
      · exact freeId_clears_only _ _ _ _ h
      · exact h

/-- Claim C2: no operation ever sets a bit in the guest domain-ID
bitmap — `pkvm_guest_iommu_free_id` only clears bits and the
ALLOC_DOMAIN handler only ever clears bits — hence, starting from the
all-zero initial bitmap, `pkvm_guest_iommu_alloc_id` always returns the
same ID `KVM_IOMMU_MAX_DOMAINS/2` (never `-EBUSY`), and two consecutive
successful ALLOC_DOMAIN hypercalls return equal domain IDs. -/
theorem guestDomains_never_set (maxD n : Nat) (words words2 : List Nat)
    (id : Int) (j j2 : Nat) (drv1 drv2 drv3 : Int → Int)
    (reqs2 : List HypReq) (hn : 1 ≤ n)
    (hj : bmTestBit (pkvm_guest_iommu_free_id maxD words id) j = true)
    (hj2 : bmTestBit
      ((pkvm_guest_iommu_alloc_domain drv3 maxD ⟨words2, reqs2⟩).words)
      j2 = true)
    (hd1 : drv1 (Int.ofNat (maxD / 2)) = 0)
    (hd2 : drv2 (Int.ofNat (maxD / 2)) = 0) :
    bmTestBit words j = true ∧
    bmTestBit words2 j2 = true ∧
    pkvm_guest_iommu_alloc_id maxD (List.replicate n 0) =
      Int.ofNat (maxD / 2) ∧
    pkvm_guest_iommu_alloc_id maxD (List.replicate n 0) ≠ -EBUSY ∧
    (pkvm_guest_iommu_alloc_domain drv1 maxD
        ⟨List.replicate n 0, []⟩).ret =
      some ⟨SMCCC_RET_SUCCESS, maxD / 2, 0, 0⟩ ∧
    (pkvm_guest_iommu_alloc_domain drv2 maxD
        ⟨(pkvm_guest_iommu_alloc_domain drv1 maxD
            ⟨List.replicate n 0, []⟩).words, []⟩).ret =
      some ⟨SMCCC_RET_SUCCESS, maxD / 2, 0, 0⟩ := by
  have hscan := allocIdScan_zeros n hn
  have hid : pkvm_guest_iommu_alloc_id maxD (List.replicate n 0) =
      Int.ofNat (maxD / 2) := by
    simp [pkvm_guest_iommu_alloc_id, hscan]
  have hrun : ∀ (drv : Int → Int), drv (Int.ofNat (maxD / 2)) = 0 →
      pkvm_guest_iommu_alloc_domain drv maxD ⟨List.replicate n 0, []⟩ =
        ⟨true, some ⟨SMCCC_RET_SUCCESS, maxD / 2, 0, 0⟩, none, 0,
          List.replicate n 0, [],
          [Event.lock, Event.allocId (Int.ofNat (maxD / 2)),
            Event.drvAllocDomain (Int.ofNat (maxD / 2)) 0,
            Event.unlock]⟩ := by
    intro drv hdrv
    simp only [pkvm_guest_iommu_alloc_domain, hid, Int.ofNat_eq_natCast]
      at hdrv ⊢
    rw [if_neg (by omega)]
    rw [hdrv]
    rw [if_neg (by decide)]
    rw [if_neg (by decide)]
    simp
    omega
  refine ⟨freeId_clears_only _ _ _ _ hj,
    allocDomain_words_only_clear _ _ _ _ hj2, hid, ?_, ?_, ?_⟩
  · rw [hid]
    simp only [EBUSY, Int.ofNat_eq_natCast]
    omega
  · rw [hrun drv1 hd1]
  · rw [hrun drv1 hd1]
    exact (hrun drv2 hd2).symm ▸ rfl

/-- Witness for `guestDomains_never_set` at `maxD = 256`, `n = 2`, with
always-succeeding drivers: both consecutive ALLOC_DOMAIN calls return
domain ID 128. -/
theorem guestDomains_never_set_witness :
    1 ≤ 2 ∧
    bmTestBit (pkvm_guest_iommu_free_id 256 [3, 0] 128) 1 = true ∧
    bmTestBit ((pkvm_guest_iommu_alloc_domain (fun _ => 0) 256
      ⟨[1, 0], []⟩).words) 0 = true ∧
    (fun (_ : Int) => (0 : Int)) (Int.ofNat (256 / 2)) = 0 ∧
    (fun (_ : Int) => (0 : Int)) (Int.ofNat (256 / 2)) = 0 ∧
    (bmTestBit [3, 0] 1 = true ∧
    bmTestBit [1, 0] 0 = true ∧
    pkvm_guest_iommu_alloc_id 256 (List.replicate 2 0) =
      Int.ofNat (256 / 2) ∧
    pkvm_guest_iommu_alloc_id 256 (List.replicate 2 0) ≠ -EBUSY ∧
    (pkvm_guest_iommu_alloc_domain (fun _ => 0) 256
        ⟨List.replicate 2 0, []⟩).ret =
      some ⟨SMCCC_RET_SUCCESS, 256 / 2, 0, 0⟩ ∧
    (pkvm_guest_iommu_alloc_domain (fun _ => 0) 256
        ⟨(pkvm_guest_iommu_alloc_domain (fun _ => 0) 256
            ⟨List.replicate 2 0, []⟩).words, []⟩).ret =
      some ⟨SMCCC_RET_SUCCESS, 256 / 2, 0, 0⟩) :=
  ⟨by decide, by decide, by decide, by decide, by decide,
    guestDomains_never_set 256 2 [3, 0] [1, 0] 128 1 0
      (fun _ => 0) (fun _ => 0) (fun _ => 0) [] (by decide) (by decide)
      (by decide) (by decide) (by decide)⟩

/-- Claim C5: ALLOC_DOMAIN holds the domain-allocator lock across the
allocate-and-register critical section (every allocator and driver event
of its trace happens under the lock, released by the end); when the
driver returns `-ENOMEM` it frees the just-allocated ID, rewinds the
guest PC by one instruction and exits with `ARM_EXCEPTION_HYP_REQ`
without writing a guest return value; on any other driver failure it
frees the ID and returns `InvalidParam`; on success it returns `SUCCESS`
with the domain ID in r1, and that ID is in the guest half. -/
theorem allocDomain_paths (drvAlloc : Int → Int) (maxD : Nat)
    (st : GState) (z : Nat) (hscan : allocIdScan st.words = some z) :
    (drvAlloc (Int.ofNat (z + maxD / 2)) = -ENOMEM →
      (pkvm_guest_iommu_alloc_domain drvAlloc maxD st).handled = false ∧
      (pkvm_guest_iommu_alloc_domain drvAlloc maxD st).ret = none ∧
      (pkvm_guest_iommu_alloc_domain drvAlloc maxD st).exitCode =
        some ARM_EXCEPTION_HYP_REQ ∧
      (pkvm_guest_iommu_alloc_domain drvAlloc maxD st).elrDelta = -4 ∧
      (pkvm_guest_iommu_alloc_domain drvAlloc maxD st).words =
        pkvm_guest_iommu_free_id maxD st.words
          (Int.ofNat (z + maxD / 2)) ∧
      wellLocked (pkvm_guest_iommu_alloc_domain drvAlloc maxD st).trace =
        true) ∧
    (drvAlloc (Int.ofNat (z + maxD / 2)) ≠ 0 →
      drvAlloc (Int.ofNat (z + maxD / 2)) ≠ -ENOMEM →
      (pkvm_guest_iommu_alloc_domain drvAlloc maxD st).handled = true ∧
      (pkvm_guest_iommu_alloc_domain drvAlloc maxD st).ret =
        some ⟨SMCCC_RET_INVALID_PARAMETER, 0, 0, 0⟩ ∧
      (pkvm_guest_iommu_alloc_domain drvAlloc maxD st).exitCode = none ∧
      (pkvm_guest_iommu_alloc_domain drvAlloc maxD st).words =
        pkvm_guest_iommu_free_id maxD st.words
          (Int.ofNat (z + maxD / 2)) ∧
      wellLocked (pkvm_guest_iommu_alloc_domain drvAlloc maxD st).trace =
        true) ∧
    (drvAlloc (Int.ofNat (z + maxD / 2)) = 0 →
      (pkvm_guest_iommu_alloc_domain drvAlloc maxD st).handled = true ∧
      (pkvm_guest_iommu_alloc_domain drvAlloc maxD st).ret =
        some ⟨SMCCC_RET_SUCCESS, z + maxD / 2, 0, 0⟩ ∧
      (pkvm_guest_iommu_alloc_domain drvAlloc maxD st).exitCode = none ∧
      maxD / 2 ≤ z + maxD / 2 ∧
      wellLocked (pkvm_guest_iommu_alloc_domain drvAlloc maxD st).trace =
        true) := by
  have hid : pkvm_guest_iommu_alloc_id maxD st.words =
      Int.ofNat (z + maxD / 2) := by
    simp [pkvm_guest_iommu_alloc_id, hscan]
  simp only [pkvm_guest_iommu_alloc_domain, hid, Int.ofNat_eq_natCast]
  rw [if_neg (by omega)]
  refine ⟨?_, ?_, ?_⟩
  · intro hoom
    rw [hoom, if_pos rfl]
    exact ⟨rfl, rfl, rfl, rfl, rfl, by simp [wellLocked, wellLockedFrom]⟩
  · intro hne hnoom
    rw [if_neg hnoom, if_pos hne]
    exact ⟨rfl, rfl, rfl, rfl, by simp [wellLocked, wellLockedFrom]⟩
  · intro hok
    rw [hok, if_neg (by decide), if_neg (by decide)]
    refine ⟨rfl, ?_, rfl, by omega, ?_⟩
    · simp
      omega
    · simp [wellLocked, wellLockedFrom]

/-- Witness for `allocDomain_paths` at `maxD = 256`, `st = ⟨[0], []⟩`,
with a driver that always reports out-of-memory: the handler frees the
ID, exits with `ARM_EXCEPTION_HYP_REQ` and writes no return value. -/
theorem allocDomain_paths_witness :
    allocIdScan ([0] : List Nat) = some 0 ∧
    (((fun (_ : Int) => -ENOMEM) (Int.ofNat (0 + 256 / 2)) = -ENOMEM →
      (pkvm_guest_iommu_alloc_domain (fun _ => -ENOMEM) 256
        ⟨[0], []⟩).handled = false ∧
      (pkvm_guest_iommu_alloc_domain (fun _ => -ENOMEM) 256
        ⟨[0], []⟩).ret = none ∧
      (pkvm_guest_iommu_alloc_domain (fun _ => -ENOMEM) 256
        ⟨[0], []⟩).exitCode = some ARM_EXCEPTION_HYP_REQ ∧
      (pkvm_guest_iommu_alloc_domain (fun _ => -ENOMEM) 256
        ⟨[0], []⟩).elrDelta = -4 ∧
      (pkvm_guest_iommu_alloc_domain (fun _ => -ENOMEM) 256
        ⟨[0], []⟩).words =
        pkvm_guest_iommu_free_id 256 [0] (Int.ofNat (0 + 256 / 2)) ∧
      wellLocked (pkvm_guest_iommu_alloc_domain (fun _ => -ENOMEM) 256
        ⟨[0], []⟩).trace = true) ∧
    ((fun (_ : Int) => -ENOMEM) (Int.ofNat (0 + 256 / 2)) ≠ 0 →
      (fun (_ : Int) => -ENOMEM) (Int.ofNat (0 + 256 / 2)) ≠ -ENOMEM →
      (pkvm_guest_iommu_alloc_domain (fun _ => -ENOMEM) 256
        ⟨[0], []⟩).handled = true ∧
      (pkvm_guest_iommu_alloc_domain (fun _ => -ENOMEM) 256
        ⟨[0], []⟩).ret = some ⟨SMCCC_RET_INVALID_PARAMETER, 0, 0, 0⟩ ∧
      (pkvm_guest_iommu_alloc_domain (fun _ => -ENOMEM) 256
        ⟨[0], []⟩).exitCode = none ∧
      (pkvm_guest_iommu_alloc_domain (fun _ => -ENOMEM) 256
        ⟨[0], []⟩).words =
        pkvm_guest_iommu_free_id 256 [0] (Int.ofNat (0 + 256 / 2)) ∧
      wellLocked (pkvm_guest_iommu_alloc_domain (fun _ => -ENOMEM) 256
        ⟨[0], []⟩).trace = true) ∧
    ((fun (_ : Int) => -ENOMEM) (Int.ofNat (0 + 256 / 2)) = 0 →
      (pkvm_guest_iommu_alloc_domain (fun _ => -ENOMEM) 256
        ⟨[0], []⟩).handled = true ∧
      (pkvm_guest_iommu_alloc_domain (fun _ => -ENOMEM) 256
        ⟨[0], []⟩).ret = some ⟨SMCCC_RET_SUCCESS, 0 + 256 / 2, 0, 0⟩ ∧
      (pkvm_guest_iommu_alloc_domain (fun _ => -ENOMEM) 256
        ⟨[0], []⟩).exitCode = none ∧
      256 / 2 ≤ 0 + 256 / 2 ∧
      wellLocked (pkvm_guest_iommu_alloc_domain (fun _ => -ENOMEM) 256
        ⟨[0], []⟩).trace = true)) :=
  ⟨by decide, allocDomain_paths (fun _ => -ENOMEM) 256 ⟨[0], []⟩ 0
    (by decide)⟩

/-- Counterexample to claim C4: with a stale unserviced request pending
(`reqs = [HypReq.other]`), the ALLOC_DOMAIN handler does not rewind the
PC and exit with `ARM_EXCEPTION_HYP_REQ` before doing anything else — it
runs to completion and hands a result back to the guest. -/
theorem allocDomain_stale_req_cex :
    (pkvm_guest_iommu_alloc_domain (fun _ => 0) 256
      ⟨[0, 0], [HypReq.other]⟩).handled = true ∧
    (pkvm_guest_iommu_alloc_domain (fun _ => 0) 256
      ⟨[0, 0], [HypReq.other]⟩).ret =
      some ⟨SMCCC_RET_SUCCESS, 128, 0, 0⟩ ∧
    ¬ ((pkvm_guest_iommu_alloc_domain (fun _ => 0) 256
        ⟨[0, 0], [HypReq.other]⟩).handled = false ∧
      (pkvm_guest_iommu_alloc_domain (fun _ => 0) 256
        ⟨[0, 0], [HypReq.other]⟩).exitCode =
        some ARM_EXCEPTION_HYP_REQ ∧
      (pkvm_guest_iommu_alloc_domain (fun _ => 0) 256
        ⟨[0, 0], [HypReq.other]⟩).elrDelta = -4) := by
  decide

/-- Claim C4 (amended): only the MAP and UNMAP handlers check for a
stale unserviced request, and only after validating
`pgsize == PAGE_SIZE`; when the check fires they rewind the guest PC by
one instruction and exit with `ARM_EXCEPTION_HYP_REQ` having done
nothing else — no return value is written, no driver call is made and no
state changes.  ALLOC_DOMAIN and ATTACH_DEV perform no stale-request
check: their guest-visible outcome (handled flag, return value, exit
code, PC adjustment) is independent of the pending request. -/
theorem staleReq_check_map_unmap_only (walk : Nat → Option Nat)
    (reserveOk : Bool)
    (drvMap : Nat → Nat → Nat → Nat → Nat → Nat → Nat × Bool)
    (drvUnmap : Nat → Nat → Nat → Nat → Nat × Bool)
    (drvAlloc : Int → Int) (route : Nat → Nat → Option (Nat × Nat))
    (drvAttach : Nat → Nat → Nat → Nat → Nat → Int) (maxD : Nat)
    (words : List Nat) (reqs : List HypReq)
    (domain iova ipa pgcount prot iommu_id sid pasid domain_id
      pasid_bits : Nat)
    (hreq : reqs ≠ []) :
    pkvm_guest_iommu_map walk reserveOk drvMap ⟨words, reqs⟩
        domain iova ipa PAGE_SIZE pgcount prot =
      ⟨false, none, some ARM_EXCEPTION_HYP_REQ, -4, words, reqs, []⟩ ∧
    pkvm_guest_iommu_unmap drvUnmap ⟨words, reqs⟩
        domain iova PAGE_SIZE pgcount =
      ⟨false, none, some ARM_EXCEPTION_HYP_REQ, -4, words, reqs, []⟩ ∧
    ((pkvm_guest_iommu_alloc_domain drvAlloc maxD ⟨words, reqs⟩).handled =
        (pkvm_guest_iommu_alloc_domain drvAlloc maxD
          ⟨words, []⟩).handled ∧
      (pkvm_guest_iommu_alloc_domain drvAlloc maxD ⟨words, reqs⟩).ret =
        (pkvm_guest_iommu_alloc_domain drvAlloc maxD ⟨words, []⟩).ret ∧
      (pkvm_guest_iommu_alloc_domain drvAlloc maxD
          ⟨words, reqs⟩).exitCode =
        (pkvm_guest_iommu_alloc_domain drvAlloc maxD
          ⟨words, []⟩).exitCode ∧
      (pkvm_guest_iommu_alloc_domain drvAlloc maxD
          ⟨words, reqs⟩).elrDelta =
        (pkvm_guest_iommu_alloc_domain drvAlloc maxD
          ⟨words, []⟩).elrDelta) ∧
    ((pkvm_guest_iommu_attach_dev route drvAttach ⟨words, reqs⟩
        iommu_id sid pasid domain_id pasid_bits).handled =
        (pkvm_guest_iommu_attach_dev route drvAttach ⟨words, []⟩
          iommu_id sid pasid domain_id pasid_bits).handled ∧
      (pkvm_guest_iommu_attach_dev route drvAttach ⟨words, reqs⟩
        iommu_id sid pasid domain_id pasid_bits).ret =
        (pkvm_guest_iommu_attach_dev route drvAttach ⟨words, []⟩
          iommu_id sid pasid domain_id pasid_bits).ret ∧
      (pkvm_guest_iommu_attach_dev route drvAttach ⟨words, reqs⟩
        iommu_id sid pasid domain_id pasid_bits).exitCode =
        (pkvm_guest_iommu_attach_dev route drvAttach ⟨words, []⟩
          iommu_id sid pasid domain_id pasid_bits).exitCode ∧
      (pkvm_guest_iommu_attach_dev route drvAttach ⟨words, reqs⟩
        iommu_id sid pasid domain_id pasid_bits).elrDelta =
        (pkvm_guest_iommu_attach_dev route drvAttach ⟨words, []⟩
          iommu_id sid pasid domain_id pasid_bits).elrDelta) := by
  refine ⟨?_, ?_, ?_, ?_⟩
  · simp [pkvm_guest_iommu_map, __need_req, hreq]
  · simp [pkvm_guest_iommu_unmap, __need_req, hreq]
  · simp only [pkvm_guest_iommu_alloc_domain]
    by_cases h1 : pkvm_guest_iommu_alloc_id maxD words < 0
    · simp [h1]
    · by_cases h2 : drvAlloc (pkvm_guest_iommu_alloc_id maxD words) =
          -ENOMEM
      · simp [h1, h2]
      · by_cases h3 : drvAlloc (pkvm_guest_iommu_alloc_id maxD words) = 0
        · simp [h1, h2, h3, ENOMEM]
        · simp [h1, h2, h3]
  · simp only [pkvm_guest_iommu_attach_dev]
    cases hroute : route iommu_id sid with
    | none => simp
    | some p =>
      by_cases h : drvAttach p.1 domain_id p.2 pasid pasid_bits = -ENOMEM
      · simp [h]
      · simp [h]

/-- Witness for `staleReq_check_map_unmap_only`: with a stale request
pending, a MAP call with valid pgsize exits immediately with
`ARM_EXCEPTION_HYP_REQ` and a rewound PC. -/
theorem staleReq_check_map_unmap_only_witness :
    pkvm_guest_iommu_map (fun _ => none) false
        (fun _ _ _ _ _ _ => (0, false)) ⟨[0, 0], [HypReq.other]⟩
        0 0 0 PAGE_SIZE 0 0 =
      ⟨false, none, some ARM_EXCEPTION_HYP_REQ, -4, [0, 0],
        [HypReq.other], []⟩ :=
  (staleReq_check_map_unmap_only (fun _ => none) false
    (fun _ _ _ _ _ _ => (0, false)) (fun _ _ _ _ => (0, false))
    (fun _ => 0) (fun _ _ => none) (fun _ _ _ _ _ => 0) 256 [0, 0]
    [HypReq.other] 0 0 0 0 0 0 0 0 0 0 (by decide)).1

/-- Counterexample to claim C1: at `pgcount = 1` with the stage-2 walk
faulting on the first page, the MAP dispatcher does not exit to the
host — it returns `(SUCCESS, 0)` to the guest with the PC not rewound —
and the posted request carries size `0`, not the remaining size
including the faulted page (`PAGE_SIZE * 1`). -/
theorem map_fault_cex :
    (pkvm_guest_iommu_map (fun _ => none) true
        (fun _ _ _ _ _ _ => (0, false)) ⟨[], []⟩
        1 0x5000 0x20000 PAGE_SIZE 1 3).handled = true ∧
    (pkvm_guest_iommu_map (fun _ => none) true
        (fun _ _ _ _ _ _ => (0, false)) ⟨[], []⟩
        1 0x5000 0x20000 PAGE_SIZE 1 3).ret =
      some ⟨SMCCC_RET_SUCCESS, 0, 0, 0⟩ ∧
    (pkvm_guest_iommu_map (fun _ => none) true
        (fun _ _ _ _ _ _ => (0, false)) ⟨[], []⟩
        1 0x5000 0x20000 PAGE_SIZE 1 3).elrDelta = 0 ∧
    (pkvm_guest_iommu_map (fun _ => none) true
        (fun _ _ _ _ _ _ => (0, false)) ⟨[], []⟩
        1 0x5000 0x20000 PAGE_SIZE 1 3).reqs =
      [HypReq.map 0x20000 0] ∧
    HypReq.map 0x20000 0 ≠ HypReq.map 0x20000 (PAGE_SIZE * 1) := by
  decide

/-- Claim C1 (amended): when the stage-2 walk faults on the first page
of a MAP and a request record can be reserved, the handler enqueues a
`KVM_HYP_REQ_TYPE_MAP` request carrying that ipa and
`pgsize * (pgcount - 1)` — the remaining size excluding the page that
faulted — records `ARM_EXCEPTION_HYP_REQ` in the exit code, but does not
rewind the PC and returns to the guest as handled with
`(SUCCESS, total_mapped = 0)`; the actual host exit happens on the next
hypercall via the stale-request check. -/
theorem map_fault_partial_progress (walk : Nat → Option Nat)
    (drvMap : Nat → Nat → Nat → Nat → Nat → Nat → Nat × Bool)
    (words : List Nat) (domain iova ipa pgsize pgcount prot : Nat)
    (hpg : pgsize = PAGE_SIZE) (hcount : 1 ≤ pgcount)
    (hwalk : walk ipa = none) :
    (pkvm_guest_iommu_map walk true drvMap ⟨words, []⟩
        domain iova ipa pgsize pgcount prot).handled = true ∧
    (pkvm_guest_iommu_map walk true drvMap ⟨words, []⟩
        domain iova ipa pgsize pgcount prot).ret =
      some ⟨SMCCC_RET_SUCCESS, 0, 0, 0⟩ ∧
    (pkvm_guest_iommu_map walk true drvMap ⟨words, []⟩
        domain iova ipa pgsize pgcount prot).reqs =
      [HypReq.map ipa ((pgsize * (pgcount - 1)) % U64_MOD)] ∧
    (pkvm_guest_iommu_map walk true drvMap ⟨words, []⟩
        domain iova ipa pgsize pgcount prot).exitCode =
      some ARM_EXCEPTION_HYP_REQ ∧
    (pkvm_guest_iommu_map walk true drvMap ⟨words, []⟩
        domain iova ipa pgsize pgcount prot).elrDelta = 0 := by
  subst hpg
  obtain ⟨k, hk⟩ : ∃ k, pgcount = k + 1 :=
    ⟨pgcount - 1, by omega⟩
  subst hk
  simp only [pkvm_guest_iommu_map, __need_req]
  rw [if_neg (by decide)]
  rw [if_neg (by simp)]
  simp only [mapLoop, hwalk, if_pos rfl]
  simp

/-- Witness for `map_fault_partial_progress` at `pgcount = 2` with the
walk faulting immediately: the request posted is for
`PAGE_SIZE * (2 - 1)` bytes. -/
theorem map_fault_partial_progress_witness :
    (pkvm_guest_iommu_map (fun _ => none) true
        (fun _ _ _ _ _ _ => (4096, false)) ⟨[], []⟩
        1 0 0x40000 PAGE_SIZE 2 3).reqs =
      [HypReq.map 0x40000 ((PAGE_SIZE * (2 - 1)) % U64_MOD)] :=
  (map_fault_partial_progress (fun _ => none)
    (fun _ _ _ _ _ _ => (4096, false)) [] 1 0 0x40000 PAGE_SIZE 2 3
    rfl (by decide) rfl).2.2.1

theorem mapLoop_total_mult (walk : Nat → Option Nat) (reserveOk : Bool)
    (drvMap : Nat → Nat → Nat → Nat → Nat → Nat → Nat × Bool)
    (domain pgsize prot : Nat) :
    ∀ (r ipa iova total : Nat) (reqs : List HypReq) (tr : List Event),
      total < U64_MOD →
      ∃ k, k ≤ r ∧
        (mapLoop walk reserveOk drvMap domain pgsize prot
          r ipa iova total reqs tr).total = (total + pgsize * k) % U64_MOD := by
  intro r
  induction r with
  | zero =>
    intro ipa iova total reqs tr htot
    exact ⟨0, Nat.le_refl 0, by simp [mapLoop, Nat.mod_eq_of_lt htot]⟩
  | succ n ih =>
    intro ipa iova total reqs tr htot
    simp only [mapLoop]
    cases hw : walk ipa with
    | none =>
      cases hres : reserveOk with
      | true =>
        exact ⟨0, Nat.zero_le _, by simp [Nat.mod_eq_of_lt htot]⟩
      | false =>
        exact ⟨0, Nat.zero_le _, by simp [Nat.mod_eq_of_lt htot]⟩
    | some pa =>
      by_cases hm0 : (drvMap domain iova pa pgsize 1 prot).1 = 0
      · by_cases hnr : __need_req
            (if (drvMap domain iova pa pgsize 1 prot).2 then
              reqs ++ [HypReq.other] else reqs)
        · exact ⟨0, Nat.zero_le _, by
            simp [hm0, hnr, Nat.mod_eq_of_lt htot]⟩
        · exact ⟨0, Nat.zero_le _, by
            simp [hm0, hnr, Nat.mod_eq_of_lt htot]⟩
      · obtain ⟨k, hk, heq⟩ := ih ((ipa + pgsize) % U64_MOD)
          ((iova + pgsize) % U64_MOD) ((total + pgsize) % U64_MOD)
          (if (drvMap domain iova pa pgsize 1 prot).2 then
            reqs ++ [HypReq.other] else reqs)
          (tr ++ [Event.drvMapPages domain iova pa pgsize 1 prot
            (drvMap domain iova pa pgsize 1 prot).1])
          (Nat.mod_lt _ (by simp [U64_MOD]))
        refine ⟨k + 1, by omega, ?_⟩
        simp only [hm0, if_false]
        rw [heq, Nat.mod_add_mod]
        congr 1
        ring
  
/-- Claim C6: for every MAP hypercall that completes back to the guest
with `pgsize = PAGE_SIZE`, the value written into r1 (`total_mapped`) is
a multiple of `pgsize` and at most `pgsize * pgcount`. -/
theorem map_total_mapped_accounting (walk : Nat → Option Nat)
    (reserveOk : Bool)
    (drvMap : Nat → Nat → Nat → Nat → Nat → Nat → Nat × Bool)
    (st : GState) (domain iova ipa pgsize pgcount prot : Nat)
    (rv : Retval) (hpg : pgsize = PAGE_SIZE)
    (hh : (pkvm_guest_iommu_map walk reserveOk drvMap st
      domain iova ipa pgsize pgcount prot).handled = true)
    (hret : (pkvm_guest_iommu_map walk reserveOk drvMap st
      domain iova ipa pgsize pgcount prot).ret = some rv) :
    pgsize ∣ rv.r1 ∧ rv.r1 ≤ pgsize * pgcount := by
  subst hpg
  simp only [pkvm_guest_iommu_map] at hh hret
  rw [if_neg (by decide)] at hh hret
  by_cases hr : __need_req st.reqs
  · rw [if_pos hr] at hh
    simp at hh
  · rw [if_neg hr] at hret
    obtain ⟨k, hk, heq⟩ := mapLoop_total_mult walk reserveOk drvMap
      domain PAGE_SIZE (__smccc_prot_linux prot) pgcount ipa iova 0
      st.reqs [] (by simp [U64_MOD])
    have hrv : rv.r1 = (0 + PAGE_SIZE * k) % U64_MOD := by
      have := congrArg (fun x => x.map Retval.r1) hret
      simp at this
      rw [← this, heq]
    rw [hrv]
    constructor
    · rw [Nat.zero_add]
      rw [Nat.dvd_mod_iff ⟨2 ^ 52, by norm_num [PAGE_SIZE, U64_MOD]⟩]
      exact Dvd.intro k rfl
    · calc (0 + PAGE_SIZE * k) % U64_MOD ≤ 0 + PAGE_SIZE * k :=
            Nat.mod_le _ _
        _ ≤ PAGE_SIZE * pgcount := by
            rw [Nat.zero_add]
            exact Nat.mul_le_mul_left _ hk

/-- Witness for `map_total_mapped_accounting`: a two-page MAP that fully
succeeds returns `r1 = 8192`, a multiple of `PAGE_SIZE` bounded by
`PAGE_SIZE * 2`. -/
theorem map_total_mapped_accounting_witness :
    (pkvm_guest_iommu_map (fun _ => some 0x1000) true
        (fun _ _ _ _ _ _ => (4096, false)) ⟨[], []⟩
        1 0 0x40000 PAGE_SIZE 2 3).handled = true ∧
    (pkvm_guest_iommu_map (fun _ => some 0x1000) true
        (fun _ _ _ _ _ _ => (4096, false)) ⟨[], []⟩
        1 0 0x40000 PAGE_SIZE 2 3).ret = some ⟨0, 8192, 0, 0⟩ ∧
    (PAGE_SIZE ∣ (8192 : Nat) ∧ (8192 : Nat) ≤ PAGE_SIZE * 2) :=
  ⟨by decide, by decide,
    map_total_mapped_accounting (fun _ => some 0x1000) true
      (fun _ _ _ _ _ _ => (4096, false)) ⟨[], []⟩ 1 0 0x40000
      PAGE_SIZE 2 3 ⟨0, 8192, 0, 0⟩ rfl (by decide) (by decide)⟩

/-- Counterexample to claim C7: at `pgcount = 2^52` the u64 product
`pgsize * pgcount` wraps to `0`, so a driver that unmaps nothing still
yields `SUCCESS` even though its byte count (0) is far below the
mathematical product `pgsize * pgcount` and no request is pending. -/
theorem unmap_overflow_cex :
    (pkvm_guest_iommu_unmap (fun _ _ _ _ => (0, false)) ⟨[], []⟩
        5 0 PAGE_SIZE (2 ^ 52)).ret =
      some ⟨SMCCC_RET_SUCCESS, 0, 0, 0⟩ ∧
    (0 : Nat) < PAGE_SIZE * 2 ^ 52 ∧
    SMCCC_RET_SUCCESS ≠ SMCCC_RET_INVALID_PARAMETER := by
  decide

/-- Claim C7 (amended): UNMAP requires `pgsize = PAGE_SIZE` and returns
`InvalidParam` with `r1 = 0` immediately otherwise; with a valid pgsize
and no stale request it calls the driver's `unmap_pages` once and writes
its byte count into r1, reporting `InvalidParam` exactly when that count
is below the u64 product `(pgsize * pgcount) % 2^64` and the driver
posted no request, and `SUCCESS` otherwise. -/
theorem unmap_semantics (drvUnmap : Nat → Nat → Nat → Nat → Nat × Bool)
    (st : GState)
    (domain iova pgsize pgsize' pgcount pgcount' iova' domain' : Nat)
    (hpg : pgsize = PAGE_SIZE) (hreq : st.reqs = [])
    (hbad : pgsize' ≠ PAGE_SIZE) :
    pkvm_guest_iommu_unmap drvUnmap st domain' iova' pgsize' pgcount' =
      ⟨true, some ⟨SMCCC_RET_INVALID_PARAMETER, 0, 0, 0⟩, none, 0,
        st.words, st.reqs, []⟩ ∧
    (pkvm_guest_iommu_unmap drvUnmap st
      domain iova pgsize pgcount).handled = true ∧
    (pkvm_guest_iommu_unmap drvUnmap st domain iova pgsize pgcount).ret =
      some ⟨(if (drvUnmap domain iova pgsize pgcount).1 % U64_MOD <
            (pgsize * pgcount) % U64_MOD ∧
            (drvUnmap domain iova pgsize pgcount).2 = false
          then SMCCC_RET_INVALID_PARAMETER else SMCCC_RET_SUCCESS),
        (drvUnmap domain iova pgsize pgcount).1 % U64_MOD, 0, 0⟩ ∧
    (pkvm_guest_iommu_unmap drvUnmap st
        domain iova pgsize pgcount).trace =
      [Event.drvUnmapPages domain iova pgsize pgcount
        ((drvUnmap domain iova pgsize pgcount).1 % U64_MOD)] := by
  subst hpg
  refine ⟨by simp [pkvm_guest_iommu_unmap, hbad], ?_⟩
  simp only [pkvm_guest_iommu_unmap]
  rw [if_neg (by decide), hreq]
  rw [if_neg (by decide)]
  cases hp : (drvUnmap domain iova PAGE_SIZE pgcount).2 with
  | false =>
    by_cases hlt : (drvUnmap domain iova PAGE_SIZE pgcount).1 % U64_MOD <
        (PAGE_SIZE * pgcount) % U64_MOD
    · simp [hp, hlt, __need_req]
    · simp [hp, hlt, __need_req]
  | true =>
    simp [hp, __need_req]

/-- Witness for `unmap_semantics`: a driver unmapping 4096 of the
requested 8192 bytes with no pending request reports `InvalidParam`
with `r1 = 4096`. -/
theorem unmap_semantics_witness :
    (pkvm_guest_iommu_unmap (fun _ _ _ _ => (4096, false)) ⟨[], []⟩
        7 0 PAGE_SIZE 2).ret =
      some ⟨(if (4096 : Nat) % U64_MOD < (PAGE_SIZE * 2) % U64_MOD ∧
          false = false
        then SMCCC_RET_INVALID_PARAMETER else SMCCC_RET_SUCCESS),
        4096 % U64_MOD, 0, 0⟩ :=
  (unmap_semantics (fun _ _ _ _ => (4096, false)) ⟨[], []⟩
    7 0 PAGE_SIZE 8192 2 1 0 9 rfl rfl (by decide)).2.2.1

/-- Claim C3 is right and the code is wrong: evaluating
`pkvm_host_map_guest_mmio` for VM 3 on page frame 2 (device 1, group 2)
against `c3Devs` — a registry satisfying group atomicity — the
group-assign aborts on device 2's failing reset, and the rollback
`while (i--)` clears the owner of device 0 as well, a group-1 device
owned by VM 1 that this call never assigned; group atomicity no longer
holds after the failed call. -/
theorem group_assign_rollback_bug :
    groupAtomic c3Devs = true ∧
    (pkvm_host_map_guest_mmio (fun _ _ => 0) 0 c3Devs 3 2 0).1 ≠ 0 ∧
    ((pkvm_host_map_guest_mmio (fun _ _ => 0) 0 c3Devs 3 2 0).2.getD 0
      dfltDev).ctxt = none ∧
    ((pkvm_host_map_guest_mmio (fun _ _ => 0) 0 c3Devs 3 2 0).2.getD 3
      dfltDev).ctxt = some 1 ∧
    groupAtomic (pkvm_host_map_guest_mmio (fun _ _ => 0) 0
      c3Devs 3 2 0).2 = false := by
  decide

/-- Counterexample to claim C9: when the walk faults and the request
area cannot be reserved, `pkvm_device_request_mmio` exits to the host
without posting any memory request (and without the
`ARM_EXCEPTION_HYP_REQ` exit code). -/
theorem request_mmio_reserve_fail_cex :
    (pkvm_device_request_mmio (fun _ => none) false [] 1 ⟨[], []⟩
      0x9000).handled = false ∧
    (pkvm_device_request_mmio (fun _ => none) false [] 1 ⟨[], []⟩
      0x9000).reqs = [] ∧
    (pkvm_device_request_mmio (fun _ => none) false [] 1 ⟨[], []⟩
      0x9000).exitCode = none := by
  decide

/-- Claim C9 (amended): `pkvm_device_request_mmio` returns `SUCCESS`
with the resolved PA as the token exactly when the page
`[pa, pa + PAGE_SIZE)` lies entirely within some MMIO resource of a
registered device owned by the calling VM; in every other case where the
walk succeeds it returns `InvalidParam` with `r1 = 0`; when the walk
faults and a request record can be reserved it posts a memory request
for `(ipa, PAGE_SIZE)`, rewinds the PC and exits with
`ARM_EXCEPTION_HYP_REQ`; when the walk faults and the reservation fails
it exits to the host without posting a request. -/
theorem request_mmio_semantics (walk : Nat → Option Nat)
    (reserveOk : Bool) (devs : List PkvmDevice) (vm : Nat) (st : GState)
    (ipa pa : Nat) :
    (walk ipa = some pa →
      ((pkvm_device_request_mmio walk reserveOk devs vm st ipa).ret =
          some ⟨SMCCC_RET_SUCCESS, pa, 0, 0⟩ ↔
        inVmResources devs vm pa = true)) ∧
    (walk ipa = some pa → inVmResources devs vm pa = false →
      (pkvm_device_request_mmio walk reserveOk devs vm st ipa).ret =
        some ⟨SMCCC_RET_INVALID_PARAMETER, 0, 0, 0⟩ ∧
      (pkvm_device_request_mmio walk reserveOk devs vm st ipa).handled =
        true) ∧
    (walk ipa = none → reserveOk = true →
      (pkvm_device_request_mmio walk reserveOk devs vm st ipa).handled =
        false ∧
      (pkvm_device_request_mmio walk reserveOk devs vm st ipa).exitCode =
        some ARM_EXCEPTION_HYP_REQ ∧
      (pkvm_device_request_mmio walk reserveOk devs vm st ipa).elrDelta =
        -4 ∧
      (pkvm_device_request_mmio walk reserveOk devs vm st ipa).reqs =
        st.reqs ++ [HypReq.map ipa PAGE_SIZE]) ∧
    (walk ipa = none → reserveOk = false →
      (pkvm_device_request_mmio walk reserveOk devs vm st ipa).handled =
        false ∧
      (pkvm_device_request_mmio walk reserveOk devs vm st ipa).reqs =
        st.reqs ∧
      (pkvm_device_request_mmio walk reserveOk devs vm st ipa).exitCode =
        none) := by
  refine ⟨?_, ?_, ?_, ?_⟩
  · intro hw
    simp only [pkvm_device_request_mmio, pkvm_get_device_pa, hw]
    rw [if_neg (by decide)]
    cases hin : inVmResources devs vm pa with
    | true => simp [hin]
    | false =>
      simp [hin, SMCCC_RET_INVALID_PARAMETER, SMCCC_RET_SUCCESS]
  · intro hw hin
    simp only [pkvm_device_request_mmio, pkvm_get_device_pa, hw]
    rw [if_neg (by decide)]
    simp [hin]
  · intro hw hres
    subst hres
    simp only [pkvm_device_request_mmio, pkvm_get_device_pa, hw]
    simp only [if_true]
    rw [if_pos (by decide)]
    exact ⟨rfl, rfl, rfl, rfl⟩
  · intro hw hres
    subst hres
    simp only [pkvm_device_request_mmio, pkvm_get_device_pa, hw]
    simp only [Bool.false_eq_true, if_false]
    rw [if_pos (by decide)]
    exact ⟨rfl, rfl, rfl⟩

/-- Witness for `request_mmio_semantics`: a faulting walk with a
successful reservation posts a `(ipa, PAGE_SIZE)` map request. -/
theorem request_mmio_semantics_witness :
    (pkvm_device_request_mmio (fun _ => none) true [] 1 ⟨[], []⟩
      0x9000).reqs = [HypReq.map 0x9000 PAGE_SIZE] :=
  ((request_mmio_semantics (fun _ => none) true [] 1 ⟨[], []⟩
    0x9000 0).2.2.1 rfl rfl).2.2.2

/-- Claim C8: the dispatcher serves nine vendor hypercalls — version,
feature probe, alloc domain, free domain, attach device, detach device,
map, unmap, and the DMA request verification call — routing each of the
nine function IDs to its handler, and each handler produces a
guest-visible result or a host exit.  (The routing of the ninth ID and
the body of its handler `pkvm_dev_req_dma` are modelled from the spec
because they are outside the sources; the device-endpoint lookup it
uses, `pkvm_get_device_by_iommu`, is embedded from the sources.) -/
theorem dispatcher_nine_handlers (o : Oracles) (maxD : Nat)
    (devs : List PkvmDevice) (st : GState)
    (r1 r2 r3 r4 r5 r6 : Nat) :
    (pviommu_dispatch o maxD devs st
        ⟨ARM_SMCCC_VENDOR_HYP_KVM_IOMMU_MAP_FUNC_ID,
          r1, r2, r3, r4, r5, r6⟩ =
      pkvm_guest_iommu_map o.walk o.reserveOk o.drvMap st
        r1 r2 r3 r4 r5 r6 ∧
    pviommu_dispatch o maxD devs st
        ⟨ARM_SMCCC_VENDOR_HYP_KVM_IOMMU_UNMAP_FUNC_ID,
          r1, r2, r3, r4, r5, r6⟩ =
      pkvm_guest_iommu_unmap o.drvUnmap st r1 r2 r3 r4 ∧
    pviommu_dispatch o maxD devs st
        ⟨ARM_SMCCC_VENDOR_HYP_KVM_IOMMU_ATTACH_DEV_FUNC_ID,
          r1, r2, r3, r4, r5, r6⟩ =
      pkvm_guest_iommu_attach_dev o.route o.drvAttach st
        r1 r2 r3 r4 r5 ∧
    pviommu_dispatch o maxD devs st
        ⟨ARM_SMCCC_VENDOR_HYP_KVM_IOMMU_DETACH_DEV_FUNC_ID,
          r1, r2, r3, r4, r5, r6⟩ =
      pkvm_guest_iommu_detach_dev o.route o.drvDetach st r1 r2 r3 r4 ∧
    pviommu_dispatch o maxD devs st
        ⟨ARM_SMCCC_VENDOR_HYP_KVM_IOMMU_VERSION_FUNC_ID,
          r1, r2, r3, r4, r5, r6⟩ =
      pkvm_guest_iommu_version st ∧
    pviommu_dispatch o maxD devs st
        ⟨ARM_SMCCC_VENDOR_HYP_KVM_IOMMU_GET_FEATURE_FUNC_ID,
          r1, r2, r3, r4, r5, r6⟩ =
      pkvm_guest_iommu_get_feature st r2 ∧
    pviommu_dispatch o maxD devs st
        ⟨ARM_SMCCC_VENDOR_HYP_KVM_IOMMU_ALLOC_DOMAIN_FUNC_ID,
          r1, r2, r3, r4, r5, r6⟩ =
      pkvm_guest_iommu_alloc_domain o.drvAlloc maxD st ∧
    pviommu_dispatch o maxD devs st
        ⟨ARM_SMCCC_VENDOR_HYP_KVM_IOMMU_FREE_DOMAIN_FUNC_ID,
          r1, r2, r3, r4, r5, r6⟩ =
      pkvm_guest_iommu_free_domain o.drvFree maxD st r1 ∧
    pviommu_dispatch o maxD devs st
        ⟨ARM_SMCCC_KVM_FUNC_DEV_REQ_DMA, r1, r2, r3, r4, r5, r6⟩ =
      pkvm_dev_req_dma o.route o.tokenOf devs st r1 r2) ∧
    (producesResultOrExit (pkvm_guest_iommu_map o.walk o.reserveOk
        o.drvMap st r1 r2 r3 r4 r5 r6) ∧
    producesResultOrExit (pkvm_guest_iommu_unmap o.drvUnmap st
        r1 r2 r3 r4) ∧
    producesResultOrExit (pkvm_guest_iommu_attach_dev o.route
        o.drvAttach st r1 r2 r3 r4 r5) ∧
    producesResultOrExit (pkvm_guest_iommu_detach_dev o.route
        o.drvDetach st r1 r2 r3 r4) ∧
    producesResultOrExit (pkvm_guest_iommu_version st) ∧
    producesResultOrExit (pkvm_guest_iommu_get_feature st r2) ∧
    producesResultOrExit (pkvm_guest_iommu_alloc_domain o.drvAlloc
        maxD st) ∧
    producesResultOrExit (pkvm_guest_iommu_free_domain o.drvFree
        maxD st r1) ∧
    producesResultOrExit (pkvm_dev_req_dma o.route o.tokenOf devs st
        r1 r2)) := by
  refine ⟨⟨rfl, rfl, rfl, rfl, rfl, rfl, rfl, rfl, rfl⟩,
    ?_, ?_, ?_, ?_, ?_, ?_, ?_, ?_, ?_⟩
  · unfold producesResultOrExit pkvm_guest_iommu_map
    split
    · left
      rfl
    · split
      · right
        rfl
      · left
        rfl
  · unfold producesResultOrExit pkvm_guest_iommu_unmap
    split
    · left
      rfl
    · split
      · right
        rfl
      · left
        rfl
  · unfold producesResultOrExit pkvm_guest_iommu_attach_dev
    split
    · left
      rfl
    · dsimp only
      split
      · right
        rfl
      · left
        rfl
  · unfold producesResultOrExit pkvm_guest_iommu_detach_dev
    split
    · left
      rfl
    · left
      rfl
  · left
    rfl
  · unfold producesResultOrExit pkvm_guest_iommu_get_feature
    split
    · left
      rfl
    · left
      rfl
  · unfold producesResultOrExit pkvm_guest_iommu_alloc_domain
    dsimp only
    split
    · left
      rfl
    · split
      · right
        rfl
      · split
        · left
          rfl
        · left
          rfl
  · left
    rfl
  · unfold producesResultOrExit pkvm_dev_req_dma
    split
    · left
      rfl
    · split
      · left
        rfl
      · left
        rfl
